import Mathlib

/-!
Verification development for the Guided Component Architect pipeline
(section splitter, structural and policy validators, error aggregation,
and the single-retry orchestrator).  The Python modules
`src/parser.py`, `src/validator.py`, `src/utils.py` and
`src/agent_loop.py` are shallowly embedded below: file contents are
`String`s scanned as `List Char`, Python dicts (which preserve insertion
order) are association lists, and each error message built by an f-string
in the source is one constructor of the inductive type `Err` together
with the `render` function that reproduces the exact message text.  The
two external model calls (generation and repair) are passed in as the
strings they would return; writing files to disk is modelled by the
returned path mapping.
-/

/-- Python whitespace class: the characters matched by `\s` in `re` and
stripped by `str.strip()` (ASCII range). -/
def isPyWs (c : Char) : Bool :=
  c == ' ' || c == '\t' || c == '\n' || c == '\r' || c == '\x0b' || c == '\x0c'

/-- ASCII letter, the class `[a-zA-Z]`. -/
def isAsciiLetter (c : Char) : Bool :=
  ('a' ≤ c && c ≤ 'z') || ('A' ≤ c && c ≤ 'Z')

/-- ASCII letter or digit, the class `[a-zA-Z0-9]`. -/
def isAsciiAlnum (c : Char) : Bool :=
  isAsciiLetter c || Char.isDigit c

/-- Hex digit, the class `[0-9a-fA-F]`. -/
def isHexDigit (c : Char) : Bool :=
  Char.isDigit c || ('a' ≤ c && c ≤ 'f') || ('A' ≤ c && c ≤ 'F')

/-- Word character, the class `\w` (ASCII range): letter, digit or underscore. -/
def isWordChar (c : Char) : Bool :=
  isAsciiAlnum c || c == '_'

/-- Lower-case a character list, as Python `str.lower()` does (ASCII range). -/
def pyLower (l : List Char) : List Char :=
  l.map Char.toLower

/-- Python `str.strip()`: drop leading and trailing whitespace. -/
def pyStrip (l : List Char) : List Char :=
  ((l.dropWhile isPyWs).reverse.dropWhile isPyWs).reverse

/-- Python substring containment `needle in hay`. -/
def isSubstring (needle : List Char) : List Char → Bool
  | [] => needle.isEmpty
  | c :: rest => List.isPrefixOf needle (c :: rest) || isSubstring needle rest

/-- Python `d.get(k, default)` on an (insertion-ordered) string dict. -/
def pyGetS (d : List (String × String)) (k : String) (dflt : String) : String :=
  match d.find? (fun p => p.1 == k) with
  | some p => p.2
  | none => dflt

/-- Lexicographic comparison of character lists by code point, the order
Python `sorted` uses on strings. -/
def charListLe : List Char → List Char → Bool
  | [], _ => true
  | _ :: _, [] => false
  | a :: as, b :: bs => if a < b then true else if b < a then false else charListLe as bs

/-- Code-point comparison of strings. -/
def strLe (a b : String) : Bool :=
  charListLe a.toList b.toList

/-- Insert a string into a `strLe`-sorted list. -/
def insertLe (s : String) : List String → List String
  | [] => [s]
  | t :: ts => if strLe s t then s :: t :: ts else t :: insertLe s ts

/-- Insertion sort by `strLe`: the order of Python `sorted` on strings. -/
def sortStrs : List String → List String
  | [] => []
  | s :: ss => insertLe s (sortStrs ss)

/-- One validation error.  Each constructor corresponds to exactly one
f-string in `src/validator.py` or `src/parser.py`; `render` below rebuilds
the message text the Python code produces. -/
inductive Err
  | missingComponentDecorator
  | missingSelector
  | missingTemplateUrl
  | missingStyleUrls
  | missingExportClass
  | mismatchedBrackets (openB closeB : Char) (opens closes : Nat)
  | markdownFences (ext : String)
  | unexpectedClosing (tag : String)
  | mismatchedTag (expected found : String)
  | unclosedTag (tag : String)
  | mismatchedCssBraces (opens closes : Nat)
  | missingFontFamily (fontName : String)
  | missingCardShadow (shadow : String)
  | missingPrimaryColor (primary : String)
  | unauthorizedColor (color : String) (allowed : List String)
  | missingBorderRadius (radius : String)
  | parseMissing (ext : String)
deriving DecidableEq

/-- The exact message text the Python source formats for each error. -/
def render : Err → String
  | Err.missingComponentDecorator => "[SYNTAX] Missing @Component decorator."
  | Err.missingSelector => "[SYNTAX] Missing selector in @Component."
  | Err.missingTemplateUrl => "[SYNTAX] Missing templateUrl — must use external HTML file."
  | Err.missingStyleUrls => "[SYNTAX] Missing styleUrls — must use external CSS file."
  | Err.missingExportClass => "[SYNTAX] Missing export class."
  | Err.mismatchedBrackets o c a b =>
      "[SYNTAX] Mismatched '" ++ String.mk [o, c] ++ "': " ++ toString a ++
        " open vs " ++ toString b ++ " close."
  | Err.markdownFences ext => "[FORMAT] Markdown fences detected in ." ++ ext ++ " file."
  | Err.unexpectedClosing tag =>
      "[HTML] Unexpected closing tag </" ++ tag ++ "> with no matching open tag."
  | Err.mismatchedTag expected found =>
      "[HTML] Mismatched tag: expected </" ++ expected ++ "> but found </" ++ found ++ ">."
  | Err.unclosedTag tag => "[HTML] Unclosed <" ++ tag ++ "> tag."
  | Err.mismatchedCssBraces a b =>
      "[SYNTAX] Mismatched CSS braces: " ++ toString a ++ " open vs " ++ toString b ++ " close."
  | Err.missingFontFamily f =>
      "[DESIGN_TOKEN] Missing font-family\n  TOKEN: font-family\n  EXPECTED: " ++ f ++
        "\n  MESSAGE: font-family token not applied in CSS"
  | Err.missingCardShadow s =>
      "[DESIGN_TOKEN] Missing card-shadow\n  TOKEN: card-shadow\n  EXPECTED: " ++ s ++
        "\n  MESSAGE: card shadow token not used in CSS"
  | Err.missingPrimaryColor p =>
      "[DESIGN_TOKEN] Missing primary_color\n  TOKEN: primary-color\n  EXPECTED: " ++ p ++
        "\n  MESSAGE: primary color token not used in HTML/CSS"
  | Err.unauthorizedColor c allowed =>
      "[DESIGN_TOKEN] Unauthorized color '" ++ c ++ "'\n  TOKEN: color\n  EXPECTED: one of [" ++
        String.intercalate ", " (allowed.map (fun a => "'" ++ a ++ "'")) ++
        "]\n  MESSAGE: hex color not in design system"
  | Err.missingBorderRadius r =>
      "[DESIGN_TOKEN] Missing border-radius\n  TOKEN: border-radius\n  EXPECTED: " ++ r ++
        "\n  MESSAGE: border radius token not used in HTML/CSS"
  | Err.parseMissing ext => "[PARSE] component." ++ ext ++ " section missing or empty."

/-- One bracket pair of the `validate_ts` balance loop: if the counts of the
opening and closing character differ, one SYNTAX error with both counts. -/
def pairCheck (cs : List Char) (o c : Char) : List Err :=
  if cs.count o != cs.count c then [Err.mismatchedBrackets o c (cs.count o) (cs.count c)] else []

/-- The `for open_b, close_b in [("{","}"),("("...)]` loop of `validate_ts`. -/
def bracketPairErrors (cs : List Char) : List Err :=
  pairCheck cs '{' '}' ++ pairCheck cs '(' ')' ++ pairCheck cs '[' ']'

/-- Embedding of `validator.validate_ts`. -/
def validate_ts (code : String) : List Err :=
  let cs := code.toList
  (if isSubstring "@Component".toList cs then [] else [Err.missingComponentDecorator]) ++
  (if isSubstring "selector:".toList cs then [] else [Err.missingSelector]) ++
  (if isSubstring "templateUrl:".toList cs then [] else [Err.missingTemplateUrl]) ++
  (if isSubstring "styleUrls:".toList cs then [] else [Err.missingStyleUrls]) ++
  (if isSubstring "export class".toList cs then [] else [Err.missingExportClass]) ++
  bracketPairErrors cs ++
  (if isSubstring "```".toList cs then [Err.markdownFences "ts"] else [])

/-- The void (self-closing) tag set of `validate_html`. -/
def voidTags : List String :=
  ["input", "br", "hr", "img", "meta", "link",
   "area", "base", "col", "embed", "param",
   "source", "track", "wbr"]

/-- Match the tag regex `<(/?)([a-zA-Z][a-zA-Z0-9]*)(\s[^>]*)?>` at the head of
the input; on success return the closing flag, the lower-cased tag name and
the rest of the input after the match. -/
def matchTagAt (s : List Char) : Option (Bool × String × List Char) :=
  match s with
  | '<' :: r0 =>
    let p := match r0 with
      | '/' :: r => (true, r)
      | _ => (false, r0)
    match p.2 with
    | c :: r2 =>
      if isAsciiLetter c then
        let nm := r2.takeWhile isAsciiAlnum
        let r3 := r2.dropWhile isAsciiAlnum
        let name := String.mk (pyLower (c :: nm))
        match r3 with
        | '>' :: r4 => some (p.1, name, r4)
        | d :: r4 =>
          if isPyWs d then
            match r4.dropWhile (fun e => e != '>') with
            | '>' :: r6 => some (p.1, name, r6)
            | _ => none
          else none
        | [] => none
      else none
    | [] => none
  | _ => none

/-- Scan the whole input for non-overlapping tag matches, left to right, as
`finditer` does.  The fuel argument is the remaining input length. -/
def scanTagsAux : Nat → List Char → List (Bool × String)
  | 0, _ => []
  | _ + 1, [] => []
  | fuel + 1, c :: rest =>
    match matchTagAt (c :: rest) with
    | some (closing, name, r) => (closing, name) :: scanTagsAux fuel r
    | none => scanTagsAux fuel rest

/-- All tag tokens of the input, in order. -/
def scanTags (cs : List Char) : List (Bool × String) :=
  scanTagsAux cs.length cs

/-- The stack unwind of `validate_html` after a mismatch: pop unmatched opens
as unclosed-tag errors until the matching tag is found (and popped) or the
stack empties. -/
def unwindStack (name : String) : List String → List Err × List String
  | [] => ([], [])
  | t :: s =>
    if t == name then ([], s)
    else
      let p := unwindStack name s
      (Err.unclosedTag t :: p.1, p.2)

/-- The main loop of `validate_html` over the tag tokens; the stack holds
lower-cased open tag names, top first.  Remaining entries at end of input
are each reported unclosed (top of stack first, as `reversed(stack)`). -/
def htmlScan : List (Bool × String) → List String → List Err
  | [], stack => stack.map Err.unclosedTag
  | (closing, name) :: ts, stack =>
    if voidTags.contains name then htmlScan ts stack
    else if !closing then htmlScan ts (name :: stack)
    else
      match stack with
      | [] => Err.unexpectedClosing name :: htmlScan ts []
      | t :: s =>
        if t == name then htmlScan ts s
        else
          let p := unwindStack name (t :: s)
          Err.mismatchedTag t name :: (p.1 ++ htmlScan ts p.2)

/-- Embedding of `validator.validate_html`. -/
def validate_html (code : String) : List Err :=
  (if isSubstring "```".toList code.toList then [Err.markdownFences "html"] else []) ++
  htmlScan (scanTags code.toList) []

/-- The `font_name` computation of `validate_css`: the font-family token
value (default `Inter`), with quote characters removed and stripped. -/
def fontNameOf (design_system : List (String × String)) : String :=
  String.mk (pyStrip ((pyGetS design_system "font-family" "Inter").toList.filter
    (fun c => c != '\'' && c != '"')))

/-- Embedding of `validator.validate_css`.  The design system dict is an
association list of string keys to string values (the design token set is
string-valued). -/
def validate_css (code : String) (design_system : List (String × String)) : List Err :=
  let cs := code.toList
  (if isSubstring "```".toList cs then [Err.markdownFences "css"] else []) ++
  (if cs.count '{' != cs.count '}' then
    [Err.mismatchedCssBraces (cs.count '{') (cs.count '}')] else []) ++
  (if fontNameOf design_system != "" &&
      !(isSubstring (pyLower (fontNameOf design_system).toList) (pyLower cs)) then
     [Err.missingFontFamily (fontNameOf design_system)] else []) ++
  (let shadow := pyGetS design_system "card-shadow" ""
   if shadow != "" && !(isSubstring shadow.toList cs) then
     [Err.missingCardShadow shadow] else [])

/-- The declared colors of the design system: every value starting with `#`,
lower-cased, in dict order (the membership test of the Python set). -/
def allowedColors (design_system : List (String × String)) : List (List Char) :=
  (design_system.map (fun p => p.2)).filterMap
    (fun v =>
      match v.toList with
      | '#' :: _ => some (pyLower v.toList)
      | _ => none)

/-- The `sorted(allowed_colors)` list interpolated into the unauthorized-color
message: the distinct lower-cased declared colors in code-point order. -/
def sortedAllowed (design_system : List (String × String)) : List String :=
  sortStrs ((allowedColors design_system).map String.mk).dedup

/-- Scan for the regex `#[0-9a-fA-F]{6}\b`: a hash, six hex digits, and a word
boundary.  Matches are non-overlapping, left to right; the fuel is the
remaining input length. -/
def findColorsAux : Nat → List Char → List (List Char)
  | 0, _ => []
  | _ + 1, [] => []
  | fuel + 1, c :: rest =>
    if c == '#' then
      let six := rest.take 6
      if six.length == 6 && six.all isHexDigit &&
          (match rest.drop 6 with
           | [] => true
           | d :: _ => !(isWordChar d)) then
        (c :: six) :: findColorsAux fuel (rest.drop 6)
      else findColorsAux fuel rest
    else findColorsAux fuel rest

/-- All 6-digit hex color literals in the input, in order. -/
def findColors (cs : List Char) : List (List Char) :=
  findColorsAux cs.length cs

/-- The combined html+css content both cross-file token checks scan. -/
def combinedOf (parsed : List (String × String)) : String :=
  (pyGetS parsed "html" "") ++ "\n" ++ (pyGetS parsed "css" "")

/-- Embedding of `validator.validate_design_tokens`: primary-color presence
(case-insensitive, on html+css), the unauthorized-color scan, and
border-radius presence (case-sensitive, on html+css). -/
def validate_design_tokens (parsed : List (String × String))
    (design_system : List (String × String)) : List Err :=
  let cl := (combinedOf parsed).toList
  let primary := pyGetS design_system "primary-color" ""
  (if primary != "" && !(isSubstring (pyLower primary.toList) (pyLower cl)) then
    [Err.missingPrimaryColor primary] else []) ++
  (((findColors cl).filter
      (fun c => !((allowedColors design_system).contains (pyLower c)))).map
    (fun c => Err.unauthorizedColor (String.mk c) (sortedAllowed design_system))) ++
  (let border_radius := pyGetS design_system "border-radius" "8px"
   if border_radius != "" && !(isSubstring border_radius.toList cl) then
     [Err.missingBorderRadius border_radius] else [])

/-- Embedding of `validator.validate_all_files`: the per-file error dict, in
insertion order ts, html, css, design. -/
def validate_all_files (parsed : List (String × String))
    (design_system : List (String × String)) : List (String × List Err) :=
  [("ts", validate_ts (pyGetS parsed "ts" "")),
   ("html", validate_html (pyGetS parsed "html" "")),
   ("css", validate_css (pyGetS parsed "css" "") design_system),
   ("design", validate_design_tokens parsed design_system)]

/-- Embedding of `validator.flatten_errors`: concatenate the dict values in
insertion order. -/
def flatten_errors (error_dict : List (String × List Err)) : List Err :=
  (error_dict.map (fun p => p.2)).flatten

/-- Embedding of `validator.has_errors`. -/
def has_errors (error_dict : List (String × List Err)) : Bool :=
  error_dict.any (fun p => decide (0 < p.2.length))

/-- Drop a case-insensitive literal from the head of the input (`lit` is given
lower-cased); `none` when the literal is not there. -/
def dropLitCI (lit : List Char) (s : List Char) : Option (List Char) :=
  match lit, s with
  | [], rest => some rest
  | _ :: _, [] => none
  | a :: as, b :: bs => if Char.toLower b == a then dropLitCI as bs else none

/-- Drop leading regex whitespace (`\s*`, greedy). -/
def dropWs (s : List Char) : List Char :=
  s.dropWhile isPyWs

/-- Match the section-header regex `===\s*NAME\s*===\s*` at the head of the
input; on success return the input after the trailing whitespace. -/
def matchHeaderAt (name : List Char) (s : List Char) : Option (List Char) :=
  match dropLitCI "===".toList s with
  | none => none
  | some s1 =>
    match dropLitCI name (dropWs s1) with
    | none => none
    | some s2 =>
      match dropLitCI "===".toList (dropWs s2) with
      | none => none
      | some s3 => some (dropWs s3)

/-- Leftmost occurrence of a section header: the rest of the input after the
first position where the header pattern matches, as `re.search` finds it. -/
def findHeader (name : List Char) : List Char → Option (List Char)
  | [] => none
  | c :: rest =>
    match matchHeaderAt name (c :: rest) with
    | some r => some r
    | none => findHeader name rest

/-- Does the lookahead `===\s*NAME` of the ts/html section patterns match at
the head of the input? -/
def isStopAt (next : List Char) (s : List Char) : Bool :=
  match dropLitCI "===".toList s with
  | none => false
  | some s1 => (dropLitCI next (dropWs s1)).isSome

/-- Index of the first position where the next-section lookahead matches. -/
def findStop (next : List Char) : List Char → Option Nat
  | [] => none
  | c :: rest =>
    if isStopAt next (c :: rest) then some 0
    else (findStop next rest).map (fun n => n + 1)

/-- Where the `$` anchor (no MULTILINE) lets the lazy capture stop: at the end
of the input, or just before a final newline. -/
def dollarCut (s : List Char) : List Char :=
  match s.getLast? with
  | some '\n' => s.dropLast
  | _ => s

/-- Raw capture of one section: the text from just after the header (and its
trailing whitespace) up to the next-section lookahead when the pattern has
one, else up to `$`; `none` when the header never matches. -/
def sectionContent (name stop : List Char) (useStop : Bool) (raw : List Char) :
    Option (List Char) :=
  match findHeader name raw with
  | none => none
  | some s =>
    if useStop then
      match findStop stop s with
      | some n => some (s.take n)
      | none => some (dollarCut s)
    else some (dollarCut s)

/-- The substitution `re.sub(r"^```[a-zA-Z]*\n?", "", content)`: remove one
leading fence marker with an optional language tag and newline. -/
def stripFenceOpen (l : List Char) : List Char :=
  if List.isPrefixOf "```".toList l then
    match (l.drop 3).dropWhile isAsciiLetter with
    | '\n' :: t => t
    | r => r
  else l

/-- The substitution `re.sub(r"\n?```$", "", content)`: remove one trailing
fence marker, taking a directly preceding newline with it. -/
def stripFenceClose (l : List Char) : List Char :=
  if List.isSuffixOf ('\n' :: "```".toList) l then l.take (l.length - 4)
  else if List.isSuffixOf "```".toList l then l.take (l.length - 3)
  else l

/-- The per-section cleanup of `parse_llm_output`: strip, remove accidental
fence markers, strip again. -/
def cleanSection (l : List Char) : List Char :=
  pyStrip (stripFenceClose (stripFenceOpen (pyStrip l)))

/-- Section name `component.ts` as the regex literal matches it. -/
def tsName : List Char := "component.ts".toList

/-- Section name `component.html`. -/
def htmlName : List Char := "component.html".toList

/-- Section name `component.css`. -/
def cssName : List Char := "component.css".toList

/-- One key's extraction in `parse_llm_output`: search for the section
pattern and clean the captured group; `none` when the header is absent. -/
def extractSection (name stop : List Char) (useStop : Bool) (raw : String) :
    Option String :=
  (sectionContent name stop useStop raw.toList).map (fun l => String.mk (cleanSection l))

/-- Python `result[key] = v` on the three-key dict (insertion order kept). -/
def setKey (d : List (String × String)) (k v : String) : List (String × String) :=
  d.map (fun p => if p.1 == k then (k, v) else p)

/-- Embedding of `parser.parse_llm_output`: split the raw model output into
the fixed three-key mapping, leaving a key's initial empty string in place
when its section header never matches. -/
def parse_llm_output (raw : String) : List (String × String) :=
  let result : List (String × String) := [("ts", ""), ("html", ""), ("css", "")]
  let result := match extractSection tsName htmlName true raw with
    | some c => setKey result "ts" c
    | none => result
  let result := match extractSection htmlName cssName true raw with
    | some c => setKey result "html" c
    | none => result
  let result := match extractSection cssName [] false raw with
    | some c => setKey result "css" c
    | none => result
  result

/-- Embedding of `parser.validate_parse_result`: one PARSE error per missing
or empty section. -/
def validate_parse_result (parsed : List (String × String)) : List Err :=
  (if pyGetS parsed "ts" "" == "" then [Err.parseMissing "ts"] else []) ++
  (if pyGetS parsed "html" "" == "" then [Err.parseMissing "html"] else []) ++
  (if pyGetS parsed "css" "" == "" then [Err.parseMissing "css"] else [])

/-- Token of an injection regex pattern: a literal character (stored
lower-cased, compared case-insensitively), the greedy `.*` (not crossing a
newline), or the greedy `\s*`. -/
inductive RTok
  | lit (c : Char)
  | dotStar
  | wsStar
deriving DecidableEq

/-- Literal pattern text as tokens (supply it lower-cased). -/
def rlit (s : String) : List RTok :=
  s.toList.map RTok.lit

/-- First successful match over a list of drop counts (tried in order). -/
def firstSome (f : Nat → Option (List Char)) : List Nat → Option (List Char)
  | [] => none
  | i :: is =>
    match f i with
    | some r => some r
    | none => firstSome f is

/-- Backtracking regex matcher at the head of the input: on success returns
the input after the match.  Greedy stars try the longest extension first,
exactly as Python `re` does for these patterns. -/
def rmatch : List RTok → List Char → Option (List Char)
  | [], s => some s
  | RTok.lit _ :: _, [] => none
  | RTok.lit c :: ts, x :: s => if Char.toLower x == c then rmatch ts s else none
  | RTok.dotStar :: ts, s =>
    let k := (s.takeWhile (fun c => c != '\n')).length
    firstSome (fun i => rmatch ts (s.drop i)) ((List.range (k + 1)).reverse)
  | RTok.wsStar :: ts, s =>
    let k := (s.takeWhile isPyWs).length
    firstSome (fun i => rmatch ts (s.drop i)) ((List.range (k + 1)).reverse)

/-- Python `re.search(pattern, s, re.IGNORECASE)` as a Boolean: does the
pattern match at some position? -/
def pySearch (toks : List RTok) : List Char → Bool
  | [] => (rmatch toks []).isSome
  | c :: rest => (rmatch toks (c :: rest)).isSome || pySearch toks rest

/-- Worker for `re.sub`: replace each leftmost non-overlapping match,
scanning left to right.  Fuel is the remaining input length (every pattern
here contains a literal, so a match consumes at least one character). -/
def pySubAux (toks : List RTok) (repl : List Char) : Nat → List Char → List Char
  | 0, s => s
  | fuel + 1, s =>
    match rmatch toks s with
    | some r => repl ++ pySubAux toks repl fuel r
    | none =>
      match s with
      | [] => []
      | c :: rest => c :: pySubAux toks repl fuel rest

/-- Python `re.sub(pattern, repl, s, flags=re.IGNORECASE)`. -/
def pySub (toks : List RTok) (repl : List Char) (s : List Char) : List Char :=
  pySubAux toks repl s.length s

/-- The `INJECTION_PATTERNS` list of `utils.py`: each entry is the compiled
pattern and the pattern's source text (interpolated into the warning). -/
def INJECTION_PATTERNS : List (List RTok × String) :=
  [(rlit "ignore previous instructions", "ignore previous instructions"),
   (rlit "ignore above", "ignore above"),
   (rlit "disregard" ++ [RTok.dotStar] ++ rlit "instructions", "disregard.*instructions"),
   (rlit "you are now", "you are now"),
   (rlit "act as", "act as"),
   (rlit "pretend" ++ [RTok.dotStar] ++ rlit "you", "pretend.*you"),
   (rlit "forget" ++ [RTok.dotStar] ++ rlit "instructions", "forget.*instructions"),
   (rlit "new instruction", "new instruction"),
   (rlit "system:", "system:"),
   (rlit "<|" ++ [RTok.dotStar] ++ rlit "|>", "<\\|.*\\|>"),
   (rlit "[inst]", "\\[INST\\]"),
   (rlit "###" ++ [RTok.wsStar] ++ rlit "instruction", "###\\s*instruction"),
   (rlit "you are a senior", "you are a senior"),
   (rlit "your job is to", "your job is to"),
   (rlit "return only", "return only"),
   (rlit "do not produce explanations", "do not produce explanations")]

/-- The warning `utils.sanitize_prompt` records for a detected pattern. -/
def blockedMsg (pattern : String) : String :=
  "Blocked suspicious pattern: '" ++ pattern ++ "'"

/-- The truncation warning of `utils.sanitize_prompt`. -/
def truncMsg : String :=
  "Prompt truncated to 500 characters."

/-- The pattern loop of `sanitize_prompt`: search each pattern in the
original input and, when found, record a warning and redact every match in
the running cleaned text. -/
def redact (user_input : String) : List Char × List String :=
  INJECTION_PATTERNS.foldl
    (fun acc pat =>
      if pySearch pat.1 user_input.toList then
        (pySub pat.1 "[REDACTED]".toList acc.1, acc.2 ++ [blockedMsg pat.2])
      else acc)
    (user_input.toList, [])

/-- Embedding of `utils.sanitize_prompt`: redact injection patterns, truncate
to 500 characters with a warning, and strip. -/
def sanitize_prompt (user_input : String) : String × List String :=
  let p := redact user_input
  if 500 < p.1.length then
    (String.mk (pyStrip (p.1.take 500)), p.2 ++ [truncMsg])
  else
    (String.mk (pyStrip p.1), p.2)

/-- Python `str.split()` (no argument): split on whitespace runs, dropping
empty words.  Fuel is the remaining input length. -/
def pySplitWsAux : Nat → List Char → List (List Char)
  | 0, _ => []
  | fuel + 1, l =>
    match l.dropWhile isPyWs with
    | [] => []
    | c :: rest =>
      let w := (c :: rest).takeWhile (fun d => !(isPyWs d))
      w :: pySplitWsAux fuel ((c :: rest).dropWhile (fun d => !(isPyWs d)))

/-- Python `str.split()` on whitespace. -/
def pySplitWs (l : List Char) : List (List Char) :=
  pySplitWsAux l.length l

/-- Python `str.split("-")`: split at every dash, keeping empty parts. -/
def pySplitDash : List Char → List (List Char)
  | [] => [[]]
  | c :: rest =>
    if c == '-' then [] :: pySplitDash rest
    else
      match pySplitDash rest with
      | w :: ws => (c :: w) :: ws
      | [] => [[c]]

/-- Python `str.capitalize()`: first character upper-cased, rest lower-cased. -/
def pyCapitalize : List Char → List Char
  | [] => []
  | c :: r => Char.toUpper c :: pyLower r

/-- The stop-word set of `utils.prompt_to_kebab`. -/
def stopWords : List String :=
  ["a", "an", "the", "with", "and", "for", "of", "in", "on", "at", "to"]

/-- Embedding of `utils.prompt_to_kebab`: keep ASCII alphanumerics and
whitespace, lower-case, split into words, drop stop words, keep at most four
words and join with dashes (default name when nothing is left). -/
def prompt_to_kebab (user_prompt : String) : String :=
  let cleaned := user_prompt.toList.filter (fun c => isAsciiAlnum c || isPyWs c)
  let words := pySplitWs (pyLower cleaned)
  let filtered := (words.filter (fun w => !(stopWords.contains (String.mk w)))).take 4
  match filtered with
  | [] => "app-component"
  | ws => String.intercalate "-" (ws.map String.mk)

/-- Embedding of `utils.kebab_to_class_name`. -/
def kebab_to_class_name (kebab : String) : String :=
  String.mk (((pySplitDash kebab.toList).map pyCapitalize).flatten) ++ "Component"

/-- Embedding of `utils.save_component`, with the file writes elided: the
returned mapping of the three written paths. -/
def save_component (files : List (String × String)) (kebab_name : String) :
    List (String × String) :=
  match files with
  | _ =>
    [("ts", "output_component/" ++ kebab_name ++ ".component.ts"),
     ("html", "output_component/" ++ kebab_name ++ ".component.html"),
     ("css", "output_component/" ++ kebab_name ++ ".component.css")]

/-- One external collaborator invocation recorded by the orchestrator
embedding: the generation call or the repair call. -/
inductive AgentCall
  | genCall
  | fixCall
deriving DecidableEq

/-- One entry of the orchestrator's `attempt_log`. -/
structure AttemptEntry where
  attempt : Nat
  phase : String
  is_valid : Bool
  errors : List Err
  files : List (String × String)
deriving DecidableEq

/-- The result dict `run_agent` returns. -/
structure RunResult where
  code : List (String × String)
  is_valid : Bool
  attempts : Nat
  errors : List Err
  injection_warnings : List String
  saved_paths : List (String × String)
  attempt_log : List AttemptEntry
  kebab_name : String
  class_name : String
deriving DecidableEq

/-- Embedding of `agent_loop._success_result`. -/
def _success_result (parsed saved_paths : List (String × String)) (attempts : Nat)
    (log : List AttemptEntry) (warnings : List String)
    (kebab_name class_name : String) : RunResult :=
  { code := parsed
    is_valid := true
    attempts := attempts
    errors := []
    injection_warnings := warnings
    saved_paths := saved_paths
    attempt_log := log
    kebab_name := kebab_name
    class_name := class_name }

/-- Embedding of `agent_loop._failure_result`: note `attempts` is the length
of the attempt log at the time of the failure. -/
def _failure_result (warnings : List String) (log : List AttemptEntry)
    (errors : List Err) (kebab_name class_name : String) : RunResult :=
  { code := [("ts", ""), ("html", ""), ("css", "")]
    is_valid := false
    attempts := log.length
    errors := errors
    injection_warnings := warnings
    saved_paths := []
    attempt_log := log
    kebab_name := kebab_name
    class_name := class_name }

/-- Embedding of `agent_loop.run_agent`.  The two external model calls are
opaque collaborators; their outputs for this run are the parameters
`genOut` (what `generate_component` returns) and `fixOut` (what
`fix_component` returns), and the design system dict is the configuration
`load_design_system` would read.  Alongside the result, the list of
collaborator invocations actually performed is returned, in order. -/
def run_agent (user_prompt : String) (design_system : List (String × String))
    (genOut fixOut : String) : RunResult × List AgentCall :=
  let sanitized := sanitize_prompt user_prompt
  let injection_warnings := sanitized.2
  let kebab_name := prompt_to_kebab sanitized.1
  let class_name := kebab_to_class_name kebab_name
  let raw_output := genOut
  let parsed := parse_llm_output raw_output
  let parse_errs := validate_parse_result parsed
  if !parse_errs.isEmpty then
    (_failure_result injection_warnings [] parse_errs kebab_name class_name,
     [AgentCall.genCall])
  else
    let error_dict := validate_all_files parsed design_system
    let all_errors := flatten_errors error_dict
    let entry1 : AttemptEntry :=
      { attempt := 1, phase := "generate", is_valid := !(has_errors error_dict),
        errors := all_errors, files := parsed }
    if !(has_errors error_dict) then
      (_success_result parsed (save_component parsed kebab_name) 1 [entry1]
        injection_warnings kebab_name class_name,
       [AgentCall.genCall])
    else
      let fixed_raw := fixOut
      let fixed_parsed := parse_llm_output fixed_raw
      let fix_parse_errs := validate_parse_result fixed_parsed
      if !fix_parse_errs.isEmpty then
        (_failure_result injection_warnings [entry1] fix_parse_errs kebab_name class_name,
         [AgentCall.genCall, AgentCall.fixCall])
      else
        let error_dict2 := validate_all_files fixed_parsed design_system
        let all_errors2 := flatten_errors error_dict2
        let entry2 : AttemptEntry :=
          { attempt := 2, phase := "fix", is_valid := !(has_errors error_dict2),
            errors := all_errors2, files := fixed_parsed }
        let saved_paths := save_component fixed_parsed kebab_name
        if !(has_errors error_dict2) then
          (_success_result fixed_parsed saved_paths 2 [entry1, entry2]
            injection_warnings kebab_name class_name,
           [AgentCall.genCall, AgentCall.fixCall])
        else
          ({ code := fixed_parsed
             is_valid := false
             attempts := 2
             errors := all_errors2
             injection_warnings := injection_warnings
             saved_paths := saved_paths
             attempt_log := [entry1, entry2]
             kebab_name := kebab_name
             class_name := class_name },
           [AgentCall.genCall, AgentCall.fixCall])

/-- Is this error a bracket-pair mismatch for the given pair? -/
def isPairErr (o c : Char) : Err → Bool
  | Err.mismatchedBrackets a b _ _ => a == o && b == c
  | _ => false

/-- Is this error the CSS brace mismatch? -/
def isCssBraceErr : Err → Bool
  | Err.mismatchedCssBraces _ _ => true
  | _ => false

/-- Is this error an unauthorized-color error? -/
def isUnauthErr : Err → Bool
  | Err.unauthorizedColor _ _ => true
  | _ => false

/-- Lookup of one file key's error list in a validation verdict. -/
def pyGetE (d : List (String × List Err)) (k : String) : List Err :=
  match d.find? (fun p => p.1 == k) with
  | some p => p.2
  | none => []

/-- Modelled from the spec: the aggregation order section 4.4 describes,
"markup, styles, logic, then cross-file design-token errors".  Used only to
compare the claimed order with the implemented one. -/
def specOrderFlatten (d : List (String × List Err)) : List Err :=
  pyGetE d "html" ++ pyGetE d "css" ++ pyGetE d "ts" ++ pyGetE d "design"

/-- A concrete generation output whose html section header is missing while
the ts and css sections are present and non-empty. -/
def C2_gen : String :=
  "=== component.ts ===\nexport class X\n=== component.css ===\nbody"

theorem filter_unauth_map (l : List (List Char)) (al : List String) :
    (l.map (fun c => Err.unauthorizedColor (String.mk c) al)).filter isUnauthErr =
      l.map (fun c => Err.unauthorizedColor (String.mk c) al) := by
  induction l with
  | nil => rfl
  | cons c cs ih => simp [isUnauthErr, ih]

/-- Claim C4: the markup tag-balance checker is a stack scanner with void
tags skipped entirely: a close tag on an empty stack reports an unexpected
closing tag; a close tag not matching the stack top reports one mismatch
error naming expected and actual tag and then unwinds, reporting each
popped unmatched open as unclosed; opens left at end of input are each
reported unclosed.  In particular the two pinned inputs of the spec give
exactly the pinned error lists, with the exact message texts. -/
theorem claim_C4 :
    validate_html "<div><span></div>" =
      [Err.mismatchedTag "span" "div", Err.unclosedTag "span"] ∧
    validate_html "<div><br><span></span></div>" = [] ∧
    validate_html "</div>" = [Err.unexpectedClosing "div"] ∧
    validate_html "<div><p>" = [Err.unclosedTag "p", Err.unclosedTag "div"] ∧
    validate_html "<br><hr><img src=x><input disabled>" = [] ∧
    validate_html "<DIV class=a><Span></div>" =
      [Err.mismatchedTag "span" "div", Err.unclosedTag "span"] ∧
    render (Err.mismatchedTag "span" "div") =
      "[HTML] Mismatched tag: expected </span> but found </div>." ∧
    render (Err.unclosedTag "span") = "[HTML] Unclosed <span> tag." ∧
    render (Err.unexpectedClosing "div") =
      "[HTML] Unexpected closing tag </div> with no matching open tag." := by
  decide

/-- Claim C5: the unauthorized-value scan of `validate_design_tokens` flags
exactly the 6-digit hex literals of the combined html+css content whose
lower-cased form is not among the design system's declared color values,
each with the sorted list of allowed colors, and flags nothing else; on the
spec's pinned example the token set flags `#00ff00` and not `#ff5733`. -/
theorem claim_C5 (parsed design_system : List (String × String)) :
    ((validate_design_tokens parsed design_system).filter isUnauthErr =
      ((findColors (combinedOf parsed).toList).filter
        (fun c => !((allowedColors design_system).contains (pyLower c)))).map
        (fun c => Err.unauthorizedColor (String.mk c) (sortedAllowed design_system))) ∧
    (validate_design_tokens [("ts", ""), ("html", ""), ("css", "color: #00ff00; border: #ff5733")]
        [("primary-color", "#ff5733")]).filter isUnauthErr =
      [Err.unauthorizedColor "#00ff00" ["#ff5733"]] := by
  constructor
  · simp only [validate_design_tokens, List.filter_append]
    rw [filter_unauth_map]
    split_ifs <;> simp [isUnauthErr]
  · decide

/-- Claim C7 (counterexample): on a parsed file set with both a logic error
and a markup error, the implemented flattening order differs from the
order the claim states (markup, styles, logic, design): the code emits
logic-file errors first. -/
theorem claim_C7_counterexample :
    flatten_errors (validate_all_files [("ts", "x"), ("html", "</p>"), ("css", "y")] []) ≠
      specOrderFlatten (validate_all_files [("ts", "x"), ("html", "</p>"), ("css", "y")] []) := by
  decide

/-- Claim C7 (amended): flattening concatenates the per-file error lists in
the fixed order logic (ts), markup (html), styles (css), then cross-file
design-token errors, preserving order within each list and never dropping
or deduplicating an error. -/
theorem claim_C7_amended (parsed design_system : List (String × String)) :
    flatten_errors (validate_all_files parsed design_system) =
      validate_ts (pyGetS parsed "ts" "") ++
      validate_html (pyGetS parsed "html" "") ++
      validate_css (pyGetS parsed "css" "") design_system ++
      validate_design_tokens parsed design_system := by
  simp [flatten_errors, validate_all_files]

theorem filter_pass_if (q : Err → Bool) (c : Prop) [Decidable c] (e : Err) (h : q e = true) :
    (if c then [e] else []).filter q = if c then [e] else [] := by
  split <;> simp [h]

theorem filter_drop_if (q : Err → Bool) (c : Prop) [Decidable c] (e : Err) (h : q e = false) :
    (if c then [e] else []).filter q = [] := by
  split <;> simp [h]

theorem filter_drop_if' (q : Err → Bool) (c : Prop) [Decidable c] (e : Err) (h : q e = false) :
    (if c then [] else [e]).filter q = [] := by
  split <;> simp [h]

/-- Claim C8: for every file content, the delimiter-balance loop of
`validate_ts` emits, for each of the three bracket pairs, exactly one
SYNTAX error carrying that pair and the two counts when the counts differ,
and none when they match; the brace check of `validate_css` does the same
for the curly pair. -/
theorem claim_C8 (code : String) (design_system : List (String × String)) :
    ((validate_ts code).filter (isPairErr '{' '}') =
      if code.toList.count '{' != code.toList.count '}' then
        [Err.mismatchedBrackets '{' '}' (code.toList.count '{') (code.toList.count '}')]
      else []) ∧
    ((validate_ts code).filter (isPairErr '(' ')') =
      if code.toList.count '(' != code.toList.count ')' then
        [Err.mismatchedBrackets '(' ')' (code.toList.count '(') (code.toList.count ')')]
      else []) ∧
    ((validate_ts code).filter (isPairErr '[' ']') =
      if code.toList.count '[' != code.toList.count ']' then
        [Err.mismatchedBrackets '[' ']' (code.toList.count '[') (code.toList.count ']')]
      else []) ∧
    ((validate_css code design_system).filter isCssBraceErr =
      if code.toList.count '{' != code.toList.count '}' then
        [Err.mismatchedCssBraces (code.toList.count '{') (code.toList.count '}')]
      else []) := by
  refine ⟨?_, ?_, ?_, ?_⟩
  · simp only [validate_ts, bracketPairErrors, pairCheck, List.filter_append]
    rw [filter_drop_if' _ _ _ (by rfl), filter_drop_if' _ _ _ (by rfl),
        filter_drop_if' _ _ _ (by rfl), filter_drop_if' _ _ _ (by rfl),
        filter_drop_if' _ _ _ (by rfl),
        filter_pass_if _ _ _ (by rfl),
        filter_drop_if _ _ _ (by rfl), filter_drop_if _ _ _ (by rfl),
        filter_drop_if _ _ _ (by rfl)]
    simp
  · simp only [validate_ts, bracketPairErrors, pairCheck, List.filter_append]
    rw [filter_drop_if' _ _ _ (by rfl), filter_drop_if' _ _ _ (by rfl),
        filter_drop_if' _ _ _ (by rfl), filter_drop_if' _ _ _ (by rfl),
        filter_drop_if' _ _ _ (by rfl),
        filter_drop_if _ _ _ (by rfl),
        filter_pass_if _ _ _ (by rfl),
        filter_drop_if _ _ _ (by rfl), filter_drop_if _ _ _ (by rfl)]
    simp
  · simp only [validate_ts, bracketPairErrors, pairCheck, List.filter_append]
    rw [filter_drop_if' _ _ _ (by rfl), filter_drop_if' _ _ _ (by rfl),
        filter_drop_if' _ _ _ (by rfl), filter_drop_if' _ _ _ (by rfl),
        filter_drop_if' _ _ _ (by rfl),
        filter_drop_if _ _ _ (by rfl), filter_drop_if _ _ _ (by rfl),
        filter_pass_if _ _ _ (by rfl),
        filter_drop_if _ _ _ (by rfl)]
    simp
  · simp only [validate_css, List.filter_append]
    rw [filter_drop_if _ _ _ (by rfl),
        filter_pass_if _ _ _ (by rfl),
        filter_drop_if _ _ _ (by rfl), filter_drop_if _ _ _ (by rfl)]
    simp

theorem flatten_ne_of_has_errors (d : List (String × List Err)) (h : has_errors d = true) :
    flatten_errors d ≠ [] := by
  induction d with
  | nil => simp [has_errors] at h
  | cons p ps ih =>
    simp only [has_errors, List.any_cons, Bool.or_eq_true] at h
    simp only [flatten_errors, List.map_cons, List.flatten_cons]
    rcases h with h | h
    · have hp : p.2 ≠ [] := by
        intro he
        simp [he] at h
      intro hc
      exact hp (List.append_eq_nil.mp hc).1
    · intro hc
      exact ih h (List.append_eq_nil.mp hc).2

/-- Claim C1: for every user prompt, design system and pair of collaborator
outputs, the orchestrator performs the generation call exactly once and the
repair call at most once — the invocation trace is either `[genCall]` or
`[genCall, fixCall]`, never a third generate-or-repair attempt — and the
run terminates with an attempt count of at most 2. -/
theorem claim_C1 (user_prompt : String) (design_system : List (String × String))
    (genOut fixOut : String) :
    ((run_agent user_prompt design_system genOut fixOut).2 = [AgentCall.genCall] ∨
      (run_agent user_prompt design_system genOut fixOut).2 =
        [AgentCall.genCall, AgentCall.fixCall]) ∧
    ((run_agent user_prompt design_system genOut fixOut).2.count AgentCall.fixCall ≤ 1) ∧
    ((run_agent user_prompt design_system genOut fixOut).1.attempts ≤ 2) := by
  unfold run_agent
  dsimp only
  split_ifs <;> simp [_failure_result, _success_result]

/-- Claim C9: in every result `run_agent` returns, the `is_valid` field is
true exactly when the `errors` field is the empty list. -/
theorem claim_C9 (user_prompt : String) (design_system : List (String × String))
    (genOut fixOut : String) :
    (run_agent user_prompt design_system genOut fixOut).1.is_valid = true ↔
      (run_agent user_prompt design_system genOut fixOut).1.errors = [] := by
  unfold run_agent
  dsimp only
  split_ifs with h1 h2 h3 h4
  · simp only [_failure_result]
    simp only [Bool.not_eq_eq_eq_not, Bool.not_true, List.isEmpty_eq_false] at h1
    simp [h1]
  · simp [_success_result]
  · simp only [_failure_result]
    simp only [Bool.not_eq_eq_eq_not, Bool.not_true, List.isEmpty_eq_false] at h3
    simp [h3]
  · simp [_success_result]
  · have h : has_errors (validate_all_files (parse_llm_output fixOut) design_system) = true := by
      simpa using h4
    have hne := flatten_ne_of_has_errors _ h
    simp [hne]

theorem setKey_keys (d : List (String × String)) (k v : String) :
    (setKey d k v).map Prod.fst = d.map Prod.fst := by
  induction d with
  | nil => rfl
  | cons p ps ih =>
    show (if (p.1 == k) = true then (k, v) else p).1 :: (setKey ps k v).map Prod.fst
        = p.1 :: ps.map Prod.fst
    rw [ih]
    congr 1
    split
    · next h => exact (beq_iff_eq.mp h).symm
    · rfl

/-- Claim C3: for every input string the splitter returns a mapping with
exactly the three fixed keys ts, html, css in that order, each bound to a
string; a key whose section header never matches keeps the empty string;
the splitter is a total function and raises no error. -/
theorem claim_C3 (raw : String) :
    ((parse_llm_output raw).map Prod.fst = ["ts", "html", "css"]) ∧
    (findHeader tsName raw.toList = none → pyGetS (parse_llm_output raw) "ts" "" = "") ∧
    (findHeader htmlName raw.toList = none → pyGetS (parse_llm_output raw) "html" "" = "") ∧
    (findHeader cssName raw.toList = none → pyGetS (parse_llm_output raw) "css" "" = "") := by
  refine ⟨?_, ?_, ?_, ?_⟩
  · dsimp only [parse_llm_output]
    cases h1 : extractSection tsName htmlName true raw <;>
      cases h2 : extractSection htmlName cssName true raw <;>
        cases h3 : extractSection cssName [] false raw <;>
          simp [setKey_keys]
  · intro hna
    have hna' : findHeader tsName raw.data = none := hna
    have hE : extractSection tsName htmlName true raw = none := by
      simp [extractSection, sectionContent, hna']
    dsimp only [parse_llm_output]
    rw [hE]
    cases h2 : extractSection htmlName cssName true raw <;>
      cases h3 : extractSection cssName [] false raw <;>
        simp [setKey, pyGetS]
  · intro hna
    have hna' : findHeader htmlName raw.data = none := hna
    have hE : extractSection htmlName cssName true raw = none := by
      simp [extractSection, sectionContent, hna']
    dsimp only [parse_llm_output]
    rw [hE]
    cases h1 : extractSection tsName htmlName true raw <;>
      cases h3 : extractSection cssName [] false raw <;>
        simp [setKey, pyGetS]
  · intro hna
    have hna' : findHeader cssName raw.data = none := hna
    have hE : extractSection cssName [] false raw = none := by
      simp [extractSection, sectionContent, hna']
    dsimp only [parse_llm_output]
    rw [hE]
    cases h1 : extractSection tsName htmlName true raw <;>
      cases h2 : extractSection htmlName cssName true raw <;>
        simp [setKey, pyGetS]

/-- Witness for claim C3 at a concrete input with no section headers. -/
theorem claim_C3_witness :
    (findHeader tsName "hello".toList = none ∧
     findHeader htmlName "hello".toList = none ∧
     findHeader cssName "hello".toList = none) ∧
    ((parse_llm_output "hello").map Prod.fst = ["ts", "html", "css"] ∧
     pyGetS (parse_llm_output "hello") "ts" "" = "" ∧
     pyGetS (parse_llm_output "hello") "html" "" = "" ∧
     pyGetS (parse_llm_output "hello") "css" "" = "") :=
  ⟨⟨by decide, by decide, by decide⟩,
   ⟨(claim_C3 "hello").1,
    (claim_C3 "hello").2.1 (by decide),
    (claim_C3 "hello").2.2.1 (by decide),
    (claim_C3 "hello").2.2.2 (by decide)⟩⟩

/-- Claim C2 (amended): when exactly one of the three sections is missing or
empty in the parsed generation output, `validate_parse_result` emits
exactly one PARSE error naming that file, and `run_agent` returns a
rejected result with an attempts field of 0 (the attempt log is still
empty on this short-circuit path, and `_failure_result` reports its
length) without ever invoking the repair collaborator. -/
theorem claim_C2_amended (user_prompt : String) (design_system : List (String × String))
    (genOut fixOut : String) (which : String)
    (hmem : which ∈ (["ts", "html", "css"] : List String))
    (hmiss : pyGetS (parse_llm_output genOut) which "" = "")
    (hrest : ∀ k ∈ (["ts", "html", "css"] : List String), k ≠ which →
      pyGetS (parse_llm_output genOut) k "" ≠ "") :
    validate_parse_result (parse_llm_output genOut) = [Err.parseMissing which] ∧
    (run_agent user_prompt design_system genOut fixOut).2 = [AgentCall.genCall] ∧
    (run_agent user_prompt design_system genOut fixOut).1.is_valid = false ∧
    (run_agent user_prompt design_system genOut fixOut).1.errors = [Err.parseMissing which] ∧
    (run_agent user_prompt design_system genOut fixOut).1.attempts = 0 := by
  have hv : validate_parse_result (parse_llm_output genOut) = [Err.parseMissing which] := by
    simp only [List.mem_cons, List.mem_singleton, List.not_mem_nil, or_false] at hmem
    rcases hmem with h | h | h <;> subst h
    · have hhtml := hrest "html" (by simp) (by decide)
      have hcss := hrest "css" (by simp) (by decide)
      simp [validate_parse_result, hmiss, hhtml, hcss]
    · have hts := hrest "ts" (by simp) (by decide)
      have hcss := hrest "css" (by simp) (by decide)
      simp [validate_parse_result, hmiss, hts, hcss]
    · have hts := hrest "ts" (by simp) (by decide)
      have hhtml := hrest "html" (by simp) (by decide)
      simp [validate_parse_result, hmiss, hts, hhtml]
  refine ⟨hv, ?_, ?_, ?_, ?_⟩ <;>
  · unfold run_agent
    dsimp only
    simp [hv, _failure_result]

/-- Claim C2 (counterexample): on a concrete generation output that is
missing the html section header, the presence check does emit the single
PARSE error and the repair collaborator is never invoked, but the rejected
result carries attempts = 0, not attempt count 1 as the claim states. -/
theorem claim_C2_counterexample :
    pyGetS (parse_llm_output C2_gen) "html" "" = "" ∧
    validate_parse_result (parse_llm_output C2_gen) = [Err.parseMissing "html"] ∧
    (run_agent "a button" [] C2_gen "").2 = [AgentCall.genCall] ∧
    (run_agent "a button" [] C2_gen "").1.is_valid = false ∧
    (run_agent "a button" [] C2_gen "").1.attempts = 0 ∧
    (run_agent "a button" [] C2_gen "").1.attempts ≠ 1 := by
  decide

/-- Witness for claim C2 (amended) at the concrete input missing the html
section. -/
theorem claim_C2_witness :
    ("html" ∈ (["ts", "html", "css"] : List String) ∧
     pyGetS (parse_llm_output C2_gen) "html" "" = "") ∧
    (validate_parse_result (parse_llm_output C2_gen) = [Err.parseMissing "html"] ∧
     (run_agent "a button" [] C2_gen "").2 = [AgentCall.genCall] ∧
     (run_agent "a button" [] C2_gen "").1.is_valid = false ∧
     (run_agent "a button" [] C2_gen "").1.errors = [Err.parseMissing "html"] ∧
     (run_agent "a button" [] C2_gen "").1.attempts = 0) :=
  ⟨⟨by decide, by decide⟩,
   claim_C2_amended "a button" [] C2_gen "" "html" (by decide) (by decide) (by decide)⟩

theorem count_ite_zero (e a : Err) (c : Prop) [Decidable c] (h : (e == a) = false) :
    (if c then [a] else []).count e = 0 := by
  have hne : ¬ a = e := by
    intro hh
    subst hh
    simp at h
  split <;> simp [List.count_cons, hne]

theorem count_ite_zero' (e a : Err) (c : Prop) [Decidable c] (h : (e == a) = false) :
    (if c then [] else [a]).count e = 0 := by
  have hne : ¬ a = e := by
    intro hh
    subst hh
    simp at h
  split <;> simp [List.count_cons, hne]

theorem count_ite_self (e : Err) (c : Prop) [Decidable c] :
    (if c then [e] else []).count e = if c then 1 else 0 := by
  split <;> simp

theorem count_unauth_map_zero (l : List (List Char)) (al : List String) (e : Err)
    (h : ∀ s a, (e == Err.unauthorizedColor s a) = false) :
    (l.map (fun c => Err.unauthorizedColor (String.mk c) al)).count e = 0 := by
  have hne : ∀ s a, ¬ Err.unauthorizedColor s a = e := by
    intro s a hh
    have hsa := h s a
    rw [← hh] at hsa
    simp at hsa
  induction l with
  | nil => rfl
  | cons c cs ih => simp [List.count_cons, ih, hne]

theorem unwind_mem (name : String) (st : List String) (e : Err)
    (h : e ∈ (unwindStack name st).1) : ∃ t, e = Err.unclosedTag t := by
  induction st with
  | nil => simp [unwindStack] at h
  | cons t s ih =>
    dsimp only [unwindStack] at h
    by_cases ht : (t == name) = true
    · rw [if_pos ht] at h
      simp at h
    · rw [if_neg ht] at h
      rcases List.mem_cons.mp h with rfl | h
      · exact ⟨t, rfl⟩
      · exact ih h

theorem htmlScan_mem (ts : List (Bool × String)) (st : List String) (e : Err)
    (h : e ∈ htmlScan ts st) :
    (∃ t, e = Err.unexpectedClosing t) ∨ (∃ a b, e = Err.mismatchedTag a b) ∨
      (∃ t, e = Err.unclosedTag t) := by
  induction ts generalizing st with
  | nil =>
    simp only [htmlScan, List.mem_map] at h
    obtain ⟨t, -, rfl⟩ := h
    exact Or.inr (Or.inr ⟨t, rfl⟩)
  | cons p ts ih =>
    obtain ⟨closing, name⟩ := p
    dsimp only [htmlScan] at h
    by_cases hv : (voidTags.contains name) = true
    · rw [if_pos hv] at h
      exact ih _ h
    · rw [if_neg hv] at h
      by_cases hc : (!closing) = true
      · rw [if_pos hc] at h
        exact ih _ h
      · rw [if_neg hc] at h
        cases st with
        | nil =>
          rcases List.mem_cons.mp h with rfl | h
          · exact Or.inl ⟨name, rfl⟩
          · exact ih _ h
        | cons t s =>
          dsimp only at h
          by_cases ht : (t == name) = true
          · rw [if_pos ht] at h
            exact ih _ h
          · rw [if_neg ht] at h
            rcases List.mem_cons.mp h with rfl | h
            · exact Or.inr (Or.inl ⟨t, name, rfl⟩)
            · rcases List.mem_append.mp h with h | h
              · obtain ⟨t', rfl⟩ := unwind_mem _ _ _ h
                exact Or.inr (Or.inr ⟨t', rfl⟩)
              · exact ih _ h

theorem count_validate_html_zero (code : String) (e : Err)
    (hfe : (e == Err.markdownFences "html") = false)
    (h1 : ∀ t, e ≠ Err.unexpectedClosing t) (h2 : ∀ a b, e ≠ Err.mismatchedTag a b)
    (h3 : ∀ t, e ≠ Err.unclosedTag t) :
    (validate_html code).count e = 0 := by
  simp only [validate_html, List.count_append]
  rw [count_ite_zero _ _ _ hfe]
  have hnm : e ∉ htmlScan (scanTags code.toList) [] := by
    intro hm
    rcases htmlScan_mem _ _ _ hm with ⟨t, rfl⟩ | ⟨a, b, rfl⟩ | ⟨t, rfl⟩
    · exact h1 t rfl
    · exact h2 a b rfl
    · exact h3 t rfl
  simp only [Nat.zero_add]
  exact List.count_eq_zero.mpr hnm

theorem count_validate_ts_zero (code : String) (e : Err)
    (h1 : (e == Err.missingComponentDecorator) = false)
    (h2 : (e == Err.missingSelector) = false)
    (h3 : (e == Err.missingTemplateUrl) = false)
    (h4 : (e == Err.missingStyleUrls) = false)
    (h5 : (e == Err.missingExportClass) = false)
    (hb : ∀ o c a b, (e == Err.mismatchedBrackets o c a b) = false)
    (hf : (e == Err.markdownFences "ts") = false) :
    (validate_ts code).count e = 0 := by
  simp only [validate_ts, bracketPairErrors, pairCheck, List.count_append]
  rw [count_ite_zero' _ _ _ h1, count_ite_zero' _ _ _ h2, count_ite_zero' _ _ _ h3,
      count_ite_zero' _ _ _ h4, count_ite_zero' _ _ _ h5,
      count_ite_zero _ _ _ (hb _ _ _ _), count_ite_zero _ _ _ (hb _ _ _ _),
      count_ite_zero _ _ _ (hb _ _ _ _), count_ite_zero _ _ _ hf]

theorem flatten_validate_all (parsed design_system : List (String × String)) :
    flatten_errors (validate_all_files parsed design_system) =
      validate_ts (pyGetS parsed "ts" "") ++
      validate_html (pyGetS parsed "html" "") ++
      validate_css (pyGetS parsed "css" "") design_system ++
      validate_design_tokens parsed design_system := by
  simp [flatten_errors, validate_all_files]

/-- Claim C6 (amended): the four token checks that exist behave as follows,
with each absent token producing exactly one DESIGN_TOKEN error naming the
token and its expected value in the flattened output: font-family
(case-insensitive) and card-shadow (case-sensitive) are checked against the
styles content only; primary-color (case-insensitive) and border-radius
(case-sensitive) are checked against the combined markup+styles content;
no other token (padding included) is checked. -/
theorem claim_C6_amended (parsed design_system : List (String × String)) :
    ((flatten_errors (validate_all_files parsed design_system)).count
        (Err.missingFontFamily (fontNameOf design_system)) =
      if fontNameOf design_system != "" &&
          !(isSubstring (pyLower (fontNameOf design_system).toList)
            (pyLower (pyGetS parsed "css" "").toList)) then 1 else 0) ∧
    ((flatten_errors (validate_all_files parsed design_system)).count
        (Err.missingCardShadow (pyGetS design_system "card-shadow" "")) =
      if pyGetS design_system "card-shadow" "" != "" &&
          !(isSubstring (pyGetS design_system "card-shadow" "").toList
            (pyGetS parsed "css" "").toList) then 1 else 0) ∧
    ((flatten_errors (validate_all_files parsed design_system)).count
        (Err.missingPrimaryColor (pyGetS design_system "primary-color" "")) =
      if pyGetS design_system "primary-color" "" != "" &&
          !(isSubstring (pyLower (pyGetS design_system "primary-color" "").toList)
            (pyLower (combinedOf parsed).toList)) then 1 else 0) ∧
    ((flatten_errors (validate_all_files parsed design_system)).count
        (Err.missingBorderRadius (pyGetS design_system "border-radius" "8px")) =
      if pyGetS design_system "border-radius" "8px" != "" &&
          !(isSubstring (pyGetS design_system "border-radius" "8px").toList
            (combinedOf parsed).toList) then 1 else 0) := by
  refine ⟨?_, ?_, ?_, ?_⟩ <;>
    rw [flatten_validate_all] <;>
    simp only [validate_css, validate_design_tokens, List.count_append] <;>
    rw [count_validate_ts_zero _ _ (by rfl) (by rfl) (by rfl) (by rfl) (by rfl) (fun o c a b => by rfl) (by rfl),
        count_validate_html_zero _ _ (by rfl) (fun t h => Err.noConfusion h)
          (fun a b h => Err.noConfusion h) (fun t h => Err.noConfusion h)]
  · rw [count_ite_zero _ _ _ (by rfl), count_ite_zero _ _ _ (by rfl), count_ite_self,
        count_ite_zero _ _ _ (by rfl), count_ite_zero _ _ _ (by rfl),
        count_unauth_map_zero _ _ _ (fun s a => by rfl), count_ite_zero _ _ _ (by rfl)]
    omega
  · rw [count_ite_zero _ _ _ (by rfl), count_ite_zero _ _ _ (by rfl), count_ite_zero _ _ _ (by rfl),
        count_ite_self,
        count_ite_zero _ _ _ (by rfl),
        count_unauth_map_zero _ _ _ (fun s a => by rfl), count_ite_zero _ _ _ (by rfl)]
    omega
  · rw [count_ite_zero _ _ _ (by rfl), count_ite_zero _ _ _ (by rfl), count_ite_zero _ _ _ (by rfl),
        count_ite_zero _ _ _ (by rfl),
        count_ite_self,
        count_unauth_map_zero _ _ _ (fun s a => by rfl), count_ite_zero _ _ _ (by rfl)]
    omega
  · rw [count_ite_zero _ _ _ (by rfl), count_ite_zero _ _ _ (by rfl), count_ite_zero _ _ _ (by rfl),
        count_ite_zero _ _ _ (by rfl), count_ite_zero _ _ _ (by rfl),
        count_unauth_map_zero _ _ _ (fun s a => by rfl),
        count_ite_self]
    omega

/-- Claim C6 (counterexample): a card-shadow value that appears (even
case-insensitively) in the combined styles+markup content but not in the
styles content alone is still reported missing, contradicting the claim
that a token value appearing in the combined content emits no error. -/
theorem claim_C6_counterexample :
    Err.missingCardShadow "0 1px 2px" ∈
      flatten_errors (validate_all_files
        [("ts", "t"), ("html", "has 0 1px 2px here"), ("css", "x")]
        [("card-shadow", "0 1px 2px"), ("padding", "77px")]) ∧
    isSubstring (pyLower "0 1px 2px".toList)
      (pyLower (combinedOf [("ts", "t"), ("html", "has 0 1px 2px here"), ("css", "x")]).toList) =
      true := by
  decide

theorem length_dropWhile_le (p : Char → Bool) (l : List Char) :
    (l.dropWhile p).length ≤ l.length := by
  induction l with
  | nil => exact Nat.le_refl 0
  | cons c cs ih =>
    rw [List.dropWhile_cons]
    split
    · exact Nat.le_trans ih (Nat.le_succ _)
    · exact Nat.le_refl _

theorem pyStrip_length_le (l : List Char) : (pyStrip l).length ≤ l.length := by
  unfold pyStrip
  rw [List.length_reverse]
  calc ((l.dropWhile isPyWs).reverse.dropWhile isPyWs).length
      ≤ (l.dropWhile isPyWs).reverse.length := length_dropWhile_le _ _
    _ = (l.dropWhile isPyWs).length := List.length_reverse _
    _ ≤ l.length := length_dropWhile_le _ _

theorem redact_warning_mem (input : String) (w : String) (h : w ∈ (redact input).2) :
    ∃ p ∈ INJECTION_PATTERNS, w = blockedMsg p.2 := by
  have aux : ∀ (l : List (List RTok × String)) (acc : List Char × List String),
      w ∈ (l.foldl (fun acc pat =>
        if pySearch pat.1 input.toList then
          (pySub pat.1 "[REDACTED]".toList acc.1, acc.2 ++ [blockedMsg pat.2])
        else acc) acc).2 →
      w ∈ acc.2 ∨ ∃ p ∈ l, w = blockedMsg p.2 := by
    intro l
    induction l with
    | nil => exact fun acc hm => Or.inl hm
    | cons p ps ih =>
      intro acc hm
      rcases ih _ hm with hm' | ⟨q, hq, rfl⟩
      · dsimp only at hm'
        by_cases hs : pySearch p.1 input.toList = true
        · rw [if_pos hs] at hm'
          rcases List.mem_append.mp hm' with hm'' | hm''
          · exact Or.inl hm''
          · refine Or.inr ⟨p, List.mem_cons_self _ _, ?_⟩
            simpa using hm''
        · rw [if_neg hs] at hm'
          exact Or.inl hm'
      · exact Or.inr ⟨q, List.mem_cons_of_mem _ hq, rfl⟩
  rcases aux INJECTION_PATTERNS (input.toList, []) h with hm | hex
  · simp at hm
  · exact hex

theorem blocked_ne_trunc : ∀ p ∈ INJECTION_PATTERNS, blockedMsg p.2 ≠ truncMsg := by
  decide

/-- Claim C10: for every input, `sanitize_prompt` returns a cleaned string of
at most 500 characters, and it appends the truncation warning exactly when
the text left after injection-pattern redaction exceeds 500 characters. -/
theorem claim_C10 (user_input : String) :
    (sanitize_prompt user_input).1.toList.length ≤ 500 ∧
    (sanitize_prompt user_input).2 =
      (redact user_input).2 ++
        (if 500 < (redact user_input).1.length then [truncMsg] else []) ∧
    (truncMsg ∈ (sanitize_prompt user_input).2 ↔ 500 < (redact user_input).1.length) := by
  unfold sanitize_prompt
  dsimp only
  by_cases h : 500 < (redact user_input).1.length
  · rw [if_pos h, if_pos h]
    refine ⟨?_, ?_, ?_⟩
    · show (pyStrip ((redact user_input).1.take 500)).length ≤ 500
      calc (pyStrip ((redact user_input).1.take 500)).length
          ≤ ((redact user_input).1.take 500).length := pyStrip_length_le _
        _ ≤ 500 := by simp [List.length_take]
    · rfl
    · simp [h]
  · rw [if_neg h, if_neg h]
    refine ⟨?_, ?_, ?_⟩
    · show (pyStrip (redact user_input).1).length ≤ 500
      exact le_trans (pyStrip_length_le _) (Nat.le_of_not_lt h)
    · simp
    · constructor
      · intro hm
        rcases redact_warning_mem _ _ hm with ⟨p, hp, heq⟩
        exact absurd heq.symm (blocked_ne_trunc p hp)
      · intro hlt
        exact absurd hlt h
